import Mathlib

/-!
Verification of the bankier_scraper crawl-and-score pipeline.

This file shallowly embeds the core logic of the two scraping pipelines:

* `Fundamental/fundamental_screen.py` (async/httpx pipeline), and
* `Bankier_sentyment/sentiment_analyzer.py` (selenium pipeline),

and proves or refutes the frozen claims about them.  External
collaborators (the HTTP client, selectolax/BeautifulSoup HTML parsing,
selenium, the filesystem) are modelled as oracles passed in as function
parameters; everything the Python sources compute themselves is
translated directly.  Python floats are modelled as rationals, Python
strings as Lean `String` (lists of characters), and Python `None` as
`Option.none`.
-/
/-! ## Shared string helpers

Both source files test keyword membership with Python's substring
operator `kw in text`, collapse whitespace with `re.sub(r"\s+", " ", t)`
followed by `.strip()`, and deduplicate preserving first-seen order.
These helpers model those operations on the character-list level.
-/
/-- `startsW hay pat` is true when `pat` is an initial segment of `hay`
(models Python's `str.startswith` used implicitly by substring search). -/
def startsW : List Char → List Char → Bool
  | _, [] => true
  | [], _ :: _ => false
  | c :: cs, p :: ps => decide (c = p) && startsW cs ps

/-- `hasSub pat hay` is true when `pat` occurs contiguously inside `hay`. -/
def hasSub (pat : List Char) : List Char → Bool
  | [] => startsW [] pat
  | c :: cs => startsW (c :: cs) pat || hasSub pat cs

/-- Python's `pat in s` substring test on strings. -/
def strIn (pat s : String) : Bool := hasSub pat.data s.data

/-- Helper for `collapseWS`: the flag records whether the previous
character belonged to a whitespace run that has already emitted its
single replacement space. -/
def collapseAux : Bool → List Char → List Char
  | _, [] => []
  | prevWS, c :: rest =>
    if c.isWhitespace then
      if prevWS then collapseAux true rest
      else ' ' :: collapseAux true rest
    else c :: collapseAux false rest

/-- One pass of `re.sub(r"\s+", " ", ·)`: every maximal run of whitespace
characters is replaced by a single space. -/
def collapseWS (cs : List Char) : List Char := collapseAux false cs

/-- Python's `str.strip()`: drop whitespace from both ends. -/
def pyStrip (s : String) : String :=
  String.mk (((s.data.dropWhile Char.isWhitespace).reverse.dropWhile
    Char.isWhitespace).reverse)

/-- Python's `str.lower()`, character by character. -/
def pyLower (s : String) : String := String.mk (s.data.map Char.toLower)

/-- `re.sub(r"\s+", " ", t).strip()` : collapse whitespace runs, then trim. -/
def normalizeWS (s : String) : String := pyStrip (String.mk (collapseWS s.data))

/-- The order-preserving dedup loop both extractors use:
`t_clean = re.sub(r"\s+", " ", t).strip(); if t_clean and t_clean not in seen: ...`.
The second argument is the `seen` set (modelled as a list). -/
def dedupLoop : List String → List String → List String
  | [], _ => []
  | t :: rest, seen =>
    let key := normalizeWS t
    if key ≠ "" ∧ key ∉ seen then key :: dedupLoop rest (key :: seen)
    else dedupLoop rest seen

/-- A thread reference parsed from a company's listing page:
`{'title': ..., 'url': ...}` in `fundamental_screen.py`,
`{'tytul': ..., 'url': ..., 'data': ...}` in `sentiment_analyzer.py`
(the date field is not used after filtering and is omitted here). -/
structure ThreadRef where
  title : String
  url : String
deriving DecidableEq

/-! ## Concurrency gate (`asyncio.Semaphore(MAX_CONCURRENT_REQUESTS)`)

`main` creates one semaphore and hands it to every `process_company` and
`process_thread` task.  `process_company` holds it exactly around its
listing fetch; `process_thread` holds it around its whole body, which
contains every thread-page fetch.  We model each task as a straight-line
program of gate/fetch events and interleave the tasks with a small-step
relation in which `acquire` blocks while the semaphore counter is zero.
-/

namespace Gate

inductive Action where
  | acquire | release | fetchStart | fetchEnd
deriving DecidableEq

/-- The dynamic state of one task: its remaining program, whether it
currently holds a semaphore slot, and whether it has a fetch in flight. -/
structure TaskSt where
  prog : List Action
  holding : Bool
  fetching : Bool
deriving DecidableEq

/-- A configuration: the tasks plus the semaphore's free-slot counter. -/
structure Config where
  tasks : List TaskSt
  avail : Nat
deriving DecidableEq

/-- Well-formedness of a task's remaining program relative to its current
(holding, fetching) state: fetches happen only between `acquire` and
`release`, exactly as in the `async with sem:` blocks of the source. -/
def okT : Bool → Bool → List Action → Bool
  | _, _, [] => true
  | h, f, a :: r =>
    match h, f, a with
    | false, false, Action.acquire => okT true false r
    | true, false, Action.release => okT false false r
    | true, false, Action.fetchStart => okT true true r
    | true, true, Action.fetchEnd => okT true false r
    | _, _, _ => false

/-- `k` fetches in a row (each a start/end pair). -/
def fetchSeq : Nat → List Action
  | 0 => []
  | k + 1 => Action.fetchStart :: Action.fetchEnd :: fetchSeq k

/-- The event program of `process_thread` (lines 256-305): acquire the
shared gate, perform the initial fetch and up to `MAX_PAGES_PER_THREAD - 1`
pagination fetches while holding it, release.  `k` is the total number of
`fetch_page` calls the task performs. -/
def threadProg (k : Nat) : List Action :=
  Action.acquire :: (fetchSeq k ++ [Action.release])

/-- The event program of `process_company`'s gated section (lines 383-384):
acquire the shared gate, fetch the listing page, release. -/
def companyProg : List Action :=
  [Action.acquire, Action.fetchStart, Action.fetchEnd, Action.release]

/-- The programs that occur in the source: company listing fetches and
thread crawls, both gated by the one shared semaphore. -/
def SourceProg (p : List Action) : Prop :=
  p = companyProg ∨ ∃ k, p = threadProg k

/-- One scheduler step: some task performs its next event (`acquire`
blocks unless a slot is free), or a new task with a source program is
spawned (as `asyncio.gather` does). -/
inductive Step : Config → Config → Prop where
  | acq (pre post : List TaskSt) (r : List Action) (h f : Bool) (n : Nat) :
      Step ⟨pre ++ ⟨Action.acquire :: r, h, f⟩ :: post, n + 1⟩
           ⟨pre ++ ⟨r, true, f⟩ :: post, n⟩
  | rel (pre post : List TaskSt) (r : List Action) (h f : Bool) (n : Nat) :
      Step ⟨pre ++ ⟨Action.release :: r, h, f⟩ :: post, n⟩
           ⟨pre ++ ⟨r, false, f⟩ :: post, n + 1⟩
  | fs (pre post : List TaskSt) (r : List Action) (h f : Bool) (n : Nat) :
      Step ⟨pre ++ ⟨Action.fetchStart :: r, h, f⟩ :: post, n⟩
           ⟨pre ++ ⟨r, h, true⟩ :: post, n⟩
  | fe (pre post : List TaskSt) (r : List Action) (h f : Bool) (n : Nat) :
      Step ⟨pre ++ ⟨Action.fetchEnd :: r, h, f⟩ :: post, n⟩
           ⟨pre ++ ⟨r, h, false⟩ :: post, n⟩
  | spawn (ts : List TaskSt) (p : List Action) (n : Nat) :
      SourceProg p → Step ⟨ts, n⟩ ⟨ts ++ [⟨p, false, false⟩], n⟩

/-- Reachability under the scheduler. -/
def Reach : Config → Config → Prop := Relation.ReflTransGen Step

/-- Number of tasks currently holding a semaphore slot. -/
def holders (ts : List TaskSt) : Nat := ts.countP (fun t => t.holding)

/-- Number of network fetches currently in flight. -/
def inflight (ts : List TaskSt) : Nat := ts.countP (fun t => t.fetching)

def TaskOk (t : TaskSt) : Prop :=
  (t.fetching = true → t.holding = true) ∧ okT t.holding t.fetching t.prog = true

/-- The inductive invariant: slots held plus slots free equals the
capacity, and every task is well-formed. -/
def Inv (N : Nat) (c : Config) : Prop :=
  holders c.tasks + c.avail = N ∧ ∀ t ∈ c.tasks, TaskOk t

end Gate

/-! ## `fundamental_screen.py` -/

namespace FundamentalScreen

/-- `MAX_CONCURRENT_REQUESTS = 5` (line 27). -/
def MAX_CONCURRENT_REQUESTS : Nat := 5

/-- `MAX_RETRIES = 3` (line 28). -/
def MAX_RETRIES : Nat := 3

/-- `MAX_PAGES_PER_THREAD = 5` (line 32). -/
def MAX_PAGES_PER_THREAD : Nat := 5

/-- `MAX_POSTS_PER_THREAD = 100` (line 33). -/
def MAX_POSTS_PER_THREAD : Nat := 100

/-- `MAX_THREAD_TEXT_CHARS = 20000` (line 34). -/
def MAX_THREAD_TEXT_CHARS : Nat := 20000

/-- What one HTTP attempt inside `fetch_page` can observe: a response
with a status code and a body, or a raised transport/timeout exception
(the `except Exception` branch). -/
inductive AttemptResult where
  | response (code : Nat) (body : String)
  | exn
deriving DecidableEq

/-- The observable outcome of `fetch_page`: its return value, how many
attempts it made, and the sleeps it performed.  Each sleep is recorded
as `(is503backoff, deterministicSeconds)`: the source adds
`random.random()` jitter to every sleep; the jitter is not modelled,
only the deterministic component (`2 ** attempt` for a 503 backoff,
`1` for an exception retry). -/
structure FetchTrace where
  result : Option String
  attempts : Nat
  sleeps : List (Bool × Nat)
deriving DecidableEq

/-- The retry loop of `fetch_page` (lines 171-191), unrolled over the
attempt index `a` with `fuel` remaining iterations of
`for attempt in range(MAX_RETRIES)`.  A 200 returns the body; a 503
sleeps `2 ** attempt` (plus jitter) and retries; any other status
returns `None` at once; an exception sleeps `1` (plus jitter) and
retries unless this is the last attempt, in which case it returns
`None`; a fully exhausted loop returns `None`. -/
def fetchGo (o : Nat → AttemptResult) : Nat → Nat → FetchTrace
  | _, 0 => ⟨none, 0, []⟩
  | a, fuel + 1 =>
    match o a with
    | AttemptResult.response code body =>
      if code = 200 then ⟨some body, 1, []⟩
      else if code = 503 then
        let t := fetchGo o (a + 1) fuel
        ⟨t.result, t.attempts + 1, (true, 2 ^ a) :: t.sleeps⟩
      else ⟨none, 1, []⟩
    | AttemptResult.exn =>
      if a < MAX_RETRIES - 1 then
        let t := fetchGo o (a + 1) fuel
        ⟨t.result, t.attempts + 1, (false, 1) :: t.sleeps⟩
      else ⟨none, 1, []⟩

/-- `fetch_page` run against an oracle `o` giving each attempt's outcome. -/
def fetch_page (o : Nat → AttemptResult) : FetchTrace := fetchGo o 0 MAX_RETRIES

/-- The deterministic components of the 503 backoff sleeps in a sleep list. -/
def backoffDetsL (sl : List (Bool × Nat)) : List Nat :=
  (sl.filter (fun s => s.1)).map (fun s => s.2)

/-- The deterministic components of the 503 backoff sleeps in a trace. -/
def backoffDets (t : FetchTrace) : List Nat := backoffDetsL t.sleeps

/-- `extract_posts_from_html` (lines 227-254), from the point where the
selector matches have produced their node texts onward.  The selectolax
CSS matching itself is external; `nodeTexts` is the list of
`node.text(separator=" ", strip=True)` values in selector order.  The
function keeps texts with `len(text) > 15` and then deduplicates by
whitespace-normalized form, returning the normalized forms in
first-seen order. -/
def extract_posts_from_html (nodeTexts : List String) : List String :=
  dedupLoop (nodeTexts.filter (fun t => 15 < t.length)) []

end FundamentalScreen

namespace SentimentAnalyzer

/-- `MAX_PAGES_PER_THREAD = 2` (line 25). -/
def MAX_PAGES_PER_THREAD : Nat := 2

/-- `MAX_POSTS_PER_THREAD = 40` (line 26). -/
def MAX_POSTS_PER_THREAD : Nat := 40

/-- `MAX_THREAD_TEXT_CHARS = 6000` (line 27). -/
def MAX_THREAD_TEXT_CHARS : Nat := 6000

/-- `extract_post_texts_from_thread_soup` (lines 130-166), from the point
where the BeautifulSoup selector matches have produced their node texts
onward (`el.get_text(separator=" ", strip=True)` values in selector
order).  Empty texts and texts with `len(txt) < 15` are skipped; the
rest are deduplicated by whitespace-normalized form, returning the
normalized forms in first-seen order. -/
def extract_post_texts_from_thread_soup (nodeTexts : List String) : List String :=
  dedupLoop (nodeTexts.filter (fun t => ¬ t = "" ∧ ¬ t.length < 15)) []

/-- `positive_keywords` of `analyze_sentiment` (lines 97-103). -/
def positive_keywords : List String :=
  [("wzrost"), ("zysk"), ("dobr"), ("super"), ("świetn"), ("pozytywn"), ("sukces"),
   ("rekord"), ("kupuj"), ("kupić"), ("kupuję"), ("hold"), ("trzyma"), ("rosnąć"),
   ("rośnie"), ("górę"), ("cel"), ("plus"), ("zyskown"), ("mocn"), ("bullish"),
   ("bull"), ("rally"), ("boom"), ("brać"), ("długi"), ("pięknie"), ("fajnie"),
   ("solidn"), ("zbiera"), ("wystrzał"), ("wzór"), ("rekomenduj"), ("okazja"),
   ("tanio"), ("warte"), ("silny"), ("dynamiczny"), ("perspektywy"), ("wzorem")]

/-- `negative_keywords` of `analyze_sentiment` (lines 105-111). -/
def negative_keywords : List String :=
  [("spadek"), ("strat"), ("kiepsk"), ("słab"), ("negatywn"), ("kryzys"),
   ("problem"), ("sprzeda"), ("sprzedaj"), ("sprzedam"), ("sell"), ("ucieka"),
   ("dół"), ("minus"), ("short"), ("tracę"), ("gubi"), ("bearish"), ("bear"),
   ("crash"), ("dno"), ("taniec"), ("płacz"), ("najgorszy"), ("dziadostwo"),
   ("gniot"), ("współczuj"), ("zawiedziony"), ("dramat"), ("zmarnowany"),
   ("zawalisz"), ("blada"), ("panika"), ("zagrożenie"), ("ryzyko"), ("strach")]

/-- `positive_score = sum(1 for keyword in positive_keywords if keyword in
title_lower)` (line 114). -/
def positive_score (title_lower : String) : Nat :=
  positive_keywords.countP (fun k => strIn k title_lower)

/-- `negative_score` (line 115). -/
def negative_score (title_lower : String) : Nat :=
  negative_keywords.countP (fun k => strIn k title_lower)

/-- `analyze_sentiment` (lines 95-122): substring keyword counting over
the lowercased text, then a three-way comparison.  (`title or ""` guards
a Python `None`, which has no counterpart here since the model's input
is always a string.) -/
def analyze_sentiment (title : String) : String × Int :=
  let title_lower := pyLower title
  if positive_score title_lower > negative_score title_lower then
    (("POZYTYWNY"), (positive_score title_lower : Int) - negative_score title_lower)
  else if negative_score title_lower > positive_score title_lower then
    (("NEGATYWNY"), (negative_score title_lower : Int) - positive_score title_lower)
  else (("NEUTRALNY"), 0)

end SentimentAnalyzer

namespace FundamentalScreen

/-- `int(ds)` for a digit run. -/
def digitsToNat (ds : List Char) : Nat :=
  ds.foldl (fun acc c => acc * 10 + (c.toNat - ('0').toNat)) 0

/-- One anchored attempt of the regex `,(\d+)\.html` at the head of the
character list: a comma, then a maximal nonempty digit run, then the
literal `.html`. -/
def matchPageAt : List Char → Option Nat
  | ',' :: rest =>
    let ds := rest.takeWhile Char.isDigit
    if ds = [] then none
    else if startsW (rest.drop ds.length) ([('.'), ('h'), ('t'), ('m'), ('l')])
    then some (digitsToNat ds) else none
  | _ => none

/-- `re.search(r',(\d+)\.html', link)` followed by `int(...)` on the
captured group: the leftmost position where the pattern matches. -/
def searchPage : List Char → Option Nat
  | [] => none
  | c :: rest =>
    match matchPageAt (c :: rest) with
    | some n => some n
    | none => searchPage rest

/-- Lines 280-287: keep the pagination links that are truthy, differ
from the thread's own URL and carry a parsable page index, paired with
that index. -/
def valid_pages (url : String) (links : List String) : List (Nat × String) :=
  links.filterMap (fun link =>
    if link ≠ "" ∧ link ≠ url then
      match searchPage link.data with
      | some n => some (n, link)
      | none => none
    else none)

/-- The ascending-by-page-number ordering used by
`valid_pages.sort(key=lambda x: x[0])`. -/
def pageLE (a b : Nat × String) : Prop := a.1 ≤ b.1

instance : DecidableRel pageLE := fun a b => Nat.decLe a.1 b.1

instance : IsTotal (Nat × String) pageLE := ⟨fun a b => Nat.le_total a.1 b.1⟩

instance : IsTrans (Nat × String) pageLE := ⟨fun _ _ _ => Nat.le_trans⟩

/-- Lines 289-290: sort the valid pages ascending by page number
(Python's `list.sort` is a stable sort; `List.insertionSort` is the
stable sort used here) and keep the links of the first `max_pages - 1`
of them. -/
def pages_to_fetch (max_pages : Nat) (url : String) (links : List String) :
    List String :=
  ((List.insertionSort pageLE (valid_pages url links)).take
    (max_pages - 1)).map Prod.snd

/-- Lines 293-300: fetch each selected page in order, stopping before
any fetch once the post cap is reached; a page that fetches as `None` or
empty contributes nothing.  Returns the accumulated posts and the list
of page URLs for which a fetch was issued. -/
def fetchLoop (fetch : String → Option String) (nodeTexts : String → List String) :
    List String → List String → List String × List String
  | [], posts => (posts, [])
  | u :: rest, posts =>
    if MAX_POSTS_PER_THREAD ≤ posts.length then (posts, [])
    else
      let posts' :=
        match fetch u with
        | some h => if h = "" then posts
                    else posts ++ extract_posts_from_html (nodeTexts h)
        | none => posts
      let r := fetchLoop fetch nodeTexts rest posts'
      (r.1, u :: r.2)

/-- The observable outcome of `process_thread`: the returned text, the
accumulated posts list, and the pagination pages for which a fetch was
issued. -/
structure ThreadTrace where
  text : String
  posts : List String
  extraFetched : List String
deriving DecidableEq

/-- `process_thread` (lines 256-305).  `fetch` is the (gated)
`fetch_page` result per URL (`none` models both `None` and, combined
with the empty-string case, everything falsy); `nodeTexts` gives the
selector-matched node texts of a fetched page (the selectolax part of
`extract_posts_from_html`); `pagLinks` gives the already-absolutized
`nav.pagination a[href]` targets of a page (selectolax plus `urljoin`).
Exceptions during pagination discovery (swallowed in the source) do not
arise here because the oracles are total. -/
def process_thread (fetch : String → Option String)
    (nodeTexts : String → List String) (pagLinks : String → List String)
    (thread : ThreadRef) : ThreadTrace :=
  match fetch thread.url with
  | none => ⟨thread.title, [], []⟩
  | some initial_html =>
    if initial_html = "" then ⟨thread.title, [], []⟩
    else
      let posts0 := extract_posts_from_html (nodeTexts initial_html)
      let pf :=
        if posts0.length < MAX_POSTS_PER_THREAD ∧ 1 < MAX_PAGES_PER_THREAD then
          fetchLoop fetch nodeTexts
            (pages_to_fetch MAX_PAGES_PER_THREAD thread.url (pagLinks initial_html))
            posts0
        else (posts0, [])
      let combined := pyStrip (thread.title ++ (" ") ++ String.intercalate (" ") pf.1)
      ⟨String.mk (combined.data.take MAX_THREAD_TEXT_CHARS), pf.1, pf.2⟩

end FundamentalScreen

namespace SentimentAnalyzer

/-- The inner loop of `scrape_thread_posts` (lines 230-234): append each
extracted text not already collected, and return from the whole function
(flag `true`) as soon as the post cap is reached. -/
def addPosts : List String → List String → List String × Bool
  | posts, [] => (posts, false)
  | posts, txt :: rest =>
    let posts' := if txt ∈ posts then posts else posts ++ [txt]
    if MAX_POSTS_PER_THREAD ≤ posts'.length then (posts', true)
    else addPosts posts' rest

/-- The page loop of `scrape_thread_posts` (lines 224-234): process each
selected page in order, stopping when `addPosts` signalled the cap. -/
def pagesLoop (extractTexts : String → List String) :
    List String → List String → List String
  | [], posts => posts
  | u :: rest, posts =>
    let r := addPosts posts (extract_post_texts_from_thread_soup (extractTexts u))
    if r.2 then r.1 else pagesLoop extractTexts rest r.1

/-- `scrape_thread_posts` (lines 211-238).  Selenium page loading and
`extract_representative_thread_pages` are abstracted: `pagesOf` gives
the selected page URLs for a thread and `extractTexts` the selector
node texts of each page.  The `except` that returns the posts collected
so far does not arise here because the oracles are total. -/
def scrape_thread_posts (extractTexts : String → List String)
    (pagesOf : String → List String) (thread_url : String) : List String :=
  if thread_url = "" then []
  else pagesLoop extractTexts (pagesOf thread_url) []

/-- Lines 308-310 of `scrape_company_sentiment`: build one thread's text
from its title and collected posts, truncating to the character cap. -/
def thread_text_of (posts : List String) (title : String) : String :=
  let t := pyStrip (title ++ (" ") ++ String.intercalate (" ") posts)
  if MAX_THREAD_TEXT_CHARS < t.length
  then String.mk (t.data.take MAX_THREAD_TEXT_CHARS) else t

end SentimentAnalyzer

/-- A 20001-character thread title. -/
def bigTitle : String := String.mk (List.replicate 20001 ('a'))

/-- 101 distinct node texts, each long enough to be kept. -/
def manyTexts : List String :=
  (List.range 101).map (fun i => ("this is post number ") ++ Nat.repr i)

/-- Demo pagination data for the claimed scenario: links to pages 2, 5
and 3 of a thread. -/
def demoThreadUrl : String := "https://www.bankier.pl/forum/temat.html"

def demoLink2 : String := "https://www.bankier.pl/forum/temat,2.html"

def demoLink5 : String := "https://www.bankier.pl/forum/temat,5.html"

def demoLink3 : String := "https://www.bankier.pl/forum/temat,3.html"

def demoLinks : List String := [demoLink2, demoLink5, demoLink3]

namespace FundamentalScreen

/-- One entry of `FUNDAMENTAL_CATEGORIES`: a name, a weight and the two
keyword lists.  Python float weights are modelled as exact rationals. -/
structure Category where
  name : String
  weight : ℚ
  positive_keywords : List String
  negative_keywords : List String

/-- `FUNDAMENTAL_CATEGORIES` (lines 45-124), in dictionary order. -/
def FUNDAMENTAL_CATEGORIES : List Category :=
  [⟨("EARNINGS"), 0.25,
    [("wzrost przychodów"), ("wzrost zysku"), ("zysk netto"), ("rekordowy wynik"),
     ("wynik finansowy"), ("wynik powyżej"), ("wzrost EBITDA"), ("rentowność"),
     ("marża"), ("zyskowność"), ("lepszy wynik"), ("przewyższył"), ("pobiła rekord"),
     ("przychody wzrosły"), ("zysk wzrósł"), ("dodatni wynik"), ("zysk operacyjny")],
    [("spadek przychodów"), ("spadek zysków"), ("strata netto"), ("strata operacyjna"),
     ("gorszy wynik"), ("spadek marży"), ("niższa rentowność"), ("wynik poniżej"),
     ("odpis"), ("utrata wartości"), ("pogorszenie wyniku")]⟩,
   ⟨("OUTLOOK"), 0.20,
    [("prognoza wzrostu"), ("perspektywy rozwoju"), ("optymistyczna prognoza"),
     ("pozytywne prognozy"), ("guidance wzrost"), ("cel wzrost"), ("szacuje wzrost"),
     ("przewiduje wzrost"), ("spodziewa się wzrostu"), ("plan rozwoju"),
     ("strategia wzrostu"), ("ambitne cele"), ("pozytywne outlook")],
    [("obniżona prognoza"), ("gorsze perspektywy"), ("negatywne prognozy"),
     ("obniżony guidance"), ("niższy cel"), ("oczekuje spadku"), ("przewiduje spadek"),
     ("pesymistyczne prognozy"), ("gorsze outlook")]⟩,
   ⟨("STRATEGY"), 0.20,
    [("nowa strategia"), ("realizacja strategii"), ("transformacja"), ("reorganizacja"),
     ("ekspansja"), ("rozwój"), ("innowacja"), ("digitalizacja"), ("automatyzacja"),
     ("pozyskał"), ("wprowadza"), ("launch"), ("premiera"), ("nowy produkt"),
     ("nowa usługa"), ("zmiany organizacyjne"), ("nowy model biznesowy")],
    [("porażka strategii"), ("problem z realizacją"), ("opóźnienie projektu"),
     ("nieudana ekspansja"), ("wycofał się"), ("zamknął"), ("likwidacja"),
     ("restrukturyzacja przymusowa")]⟩,
   ⟨("CONTRACTS"), 0.15,
    [("nowy kontrakt"), ("podpisał umowę"), ("wygrał przetarg"), ("zawarł umowę"),
     ("pozyskał zlecenie"), ("nowe zamówienie"), ("największy kontrakt"),
     ("umowa wieloletnia"), ("wartość kontraktu"), ("strategiczny kontrakt"),
     ("kontrakt eksportowy"), ("rozszerzenie współpracy"), ("przedłużenie umowy")],
    [("utrata kontraktu"), ("rozwiązanie umowy"), ("anulowanie kontraktu"),
     ("przegrał przetarg"), ("kontrakt zagrożony"), ("spór o kontrakt")]⟩,
   ⟨("MARKET_POSITION"), 0.10,
    [("lider rynku"), ("wzrost udziału"), ("pozycja rynkowa"), ("dominujący"),
     ("przewaga konkurencyjna"), ("zwiększył udział"), ("silna pozycja"),
     ("konkurencyjność"), ("rozpoznawalność marki"), ("brand value")],
    [("utrata udziału"), ("spadek pozycji"), ("konkurencja silniejsza"),
     ("osłabienie pozycji"), ("presja konkurencyjna")]⟩,
   ⟨("RISKS"), 0.10,
    [],
    [("problem"), ("kryzys"), ("zagrożenie"), ("ryzyko"), ("śledztwo"),
     ("postępowanie"), ("pozew"), ("kara"), ("sankcja"), ("skandal"),
     ("afera"), ("konflikt"), ("spór"), ("ostrzeżenie"), ("rating obniżony"),
     ("podwyższone ryzyko"), ("zagrożony"), ("problemy finansowe"),
     ("problemy operacyjne"), ("zawieszenie"), ("blokada")]⟩]

/-- Per-category entry of the `category_scores` dictionary (lines
345-350). -/
structure CatScore where
  net_score : Int
  weighted_score : ℚ
  positive_count : Nat
  negative_count : Nat
deriving DecidableEq

/-- One keyword-list pass of `analyze_fundamentals` (lines 328-339):
count the keywords present in the lowercased text and collect at most 3
highlight strings `f"{tag}{category_name}: {keyword}"`. -/
def scanKeywords (tl tag cat : String) : List String → Nat × List String → Nat × List String
  | [], acc => acc
  | k :: rest, acc =>
    if strIn k tl then
      scanKeywords tl tag cat rest
        (acc.1 + 1, if acc.2.length < 3 then acc.2 ++ [tag ++ cat ++ (": ") ++ k]
                    else acc.2)
    else scanKeywords tl tag cat rest acc

/-- The per-category body of the `for category_name, category_data`
loop (lines 323-350). -/
def analyzeStep (tl : String) (acc : List (String × CatScore) × List String)
    (c : Category) : List (String × CatScore) × List String :=
  let pr := scanKeywords tl ("+") c.name c.positive_keywords (0, acc.2)
  let nr := scanKeywords tl ("-") c.name c.negative_keywords (0, pr.2)
  let net : Int := (pr.1 : Int) - (nr.1 : Int)
  (acc.1 ++ [(c.name, ⟨net, (net : ℚ) * c.weight, pr.1, nr.1⟩)], nr.2)

/-- The result dictionary of `analyze_fundamentals` (lines 355-359). -/
structure Analysis where
  total_score : ℚ
  categories : List (String × CatScore)
  highlights : List String
deriving DecidableEq

/-- `analyze_fundamentals` (lines 311-359), generic in the category
table it iterates over (the source reads the global
`FUNDAMENTAL_CATEGORIES`). -/
def analyzeFundamentalsWith (cats : List Category) (text : String) : Analysis :=
  if text = "" then ⟨0, [], []⟩
  else
    let tl := pyLower text
    let r := cats.foldl (analyzeStep tl) ([], [])
    ⟨(r.1.map (fun x => x.2.weighted_score)).sum, r.1, r.2⟩

/-- `analyze_fundamentals` applied to the source's global category
table. -/
def analyze_fundamentals (text : String) : Analysis :=
  analyzeFundamentalsWith FUNDAMENTAL_CATEGORIES text

/-- `get_fundamental_rating` (lines 361-376). -/
def get_fundamental_rating (score : ℚ) : String :=
  if 3.0 ≤ score then ("🚀 VERY BULLISH")
  else if 1.5 ≤ score then ("📈 BULLISH")
  else if 0.5 ≤ score then ("😊 SLIGHTLY BULLISH")
  else if -0.5 < score then ("➡️ NEUTRAL")
  else if -1.5 < score then ("😐 SLIGHTLY BEARISH")
  else if -3.0 < score then ("📉 BEARISH")
  else ("💥 VERY BEARISH")

/-- The per-category scores as a standalone function: positive and
negative hits are the numbers of that category's keywords
substring-present in the lowercased text, the net score their
difference, the weighted score the net score times the category
weight. -/
def catScoreOf (tl : String) (c : Category) : CatScore :=
  let p := c.positive_keywords.countP (fun k => strIn k tl)
  let n := c.negative_keywords.countP (fun k => strIn k tl)
  ⟨(p : Int) - n, (((p : Int) - n : Int) : ℚ) * c.weight, p, n⟩

end FundamentalScreen

/-- The hypothetical two-category table of the spec's scenario. -/
def demoCats : List FundamentalScreen.Category :=
  [⟨("A"), 0.5, [("dobre wyniki")], []⟩,
   ⟨("B"), 0.5, [], [("slabe wyniki")]⟩]

namespace FundamentalScreen

/-- `round(x, 2)` on the total score (line 442).  Python rounds floats
half-to-even; the model does the same on rationals. -/
def round_half_even (q : ℚ) : Int :=
  if q - ⌊q⌋ < 1/2 then ⌊q⌋
  else if 1/2 < q - ⌊q⌋ then ⌊q⌋ + 1
  else if ⌊q⌋ % 2 = 0 then ⌊q⌋ else ⌊q⌋ + 1

def pyround2 (q : ℚ) : ℚ := (round_half_even (q * 100) : ℚ) / 100

/-- The result dictionary of `process_company` (lines 440-446); the
Polish keys `Spółka`/`Wynik`/`Rating`/`Wątki`/`Highlights` become
fields. -/
structure CompanyResult where
  spolka : String
  wynik : ℚ
  rating : String
  watki : Nat
  highlights : String
deriving DecidableEq

/-- Line 438: `"; ".join(analysis['highlights'][:3])` with a fallback
when there are no highlights. -/
def highlights_str (hs : List String) : String :=
  if hs ≠ [] then String.intercalate ("; ") (hs.take 3)
  else ("Brak wykrytych sygnałów")

/-- `process_company` (lines 378-446).  The listing-page HTML parsing
and recency filtering (lines 389-416) are abstracted into
`parseThreads`, which yields the `threads_to_scrape` list for a
fetched listing page.  A falsy (`None` or empty) listing page yields
`None`; an empty thread list yields the synthetic zero-activity result;
otherwise one `process_thread` task is fanned out per retained thread,
the texts are joined and analyzed once, and the result record is
built. -/
def process_company (fetch : String → Option String)
    (nodeTexts pagLinks : String → List String)
    (parseThreads : String → List ThreadRef) (name url : String) :
    Option CompanyResult :=
  match fetch url with
  | none => none
  | some html =>
    if html = "" then none
    else
      let threads_to_scrape := parseThreads html
      if threads_to_scrape = [] then
        some ⟨name, 0, ("➡️ NEUTRAL"), 0, ("Brak dyskusji")⟩
      else
        let thread_texts := threads_to_scrape.map
          (fun t => (process_thread fetch nodeTexts pagLinks t).text)
        let combined_text := String.intercalate (" ") thread_texts
        let analysis := analyze_fundamentals combined_text
        some ⟨name, pyround2 analysis.total_score,
              get_fundamental_rating analysis.total_score,
              threads_to_scrape.length, highlights_str analysis.highlights⟩

end FundamentalScreen

namespace SentimentAnalyzer

/-- The result dictionary of `scrape_company_sentiment` (lines 336-345);
the two formatted percentage strings (`Pozyt.%`, `Negat.%`) are derived
display values and are not modelled. -/
structure SentCompanyResult where
  spolka : String
  watki : Nat
  pozyt : Nat
  negat : Nat
  neutr : Nat
  sentyment : String
deriving DecidableEq

/-- Lines 323-332: the overall company label from the positive and
negative thread counts (1.5 is modelled as the exact rational 3/2). -/
def overall_label (positive_count negative_count : Nat) : String :=
  if (positive_count : ℚ) > (negative_count : ℚ) * 1.5 then ("📈 BULLISH")
  else if (negative_count : ℚ) > (positive_count : ℚ) * 1.5 then ("📉 BEARISH")
  else if positive_count > negative_count then ("😊 +POZYT")
  else if negative_count > positive_count then ("😐 -NEGAT")
  else ("➡️ NEUTR")

/-- Lines 305-313: one sentiment label per thread, computed from the
thread's individually crawled and truncated text. -/
def sentimentsOf (extractTexts pagesOf : String → List String)
    (threads_data : List ThreadRef) : List String :=
  threads_data.map (fun item =>
    (analyze_sentiment (thread_text_of
      (scrape_thread_posts extractTexts pagesOf item.url) item.title)).1)

/-- `scrape_company_sentiment` (lines 240-349), from the point where the
listing page has been loaded and parsed into `threads_data` onward
(selenium, cookie handling and row parsing are external). -/
def scrape_company_sentiment (extractTexts pagesOf : String → List String)
    (threads_data : List ThreadRef) (company_name : String) :
    Option SentCompanyResult :=
  if threads_data = [] then none
  else
    let sentiments := sentimentsOf extractTexts pagesOf threads_data
    let positive_count := sentiments.count ("POZYTYWNY")
    let negative_count := sentiments.count ("NEGATYWNY")
    let neutral_count := sentiments.count ("NEUTRALNY")
    some ⟨company_name, sentiments.length, positive_count, negative_count,
          neutral_count, overall_label positive_count negative_count⟩

end SentimentAnalyzer

/-- The fan-out/fan-in aggregation `process_company` performs once its
thread list is non-empty: crawl every retained thread individually,
join the texts, score the joined text once, aggregate. -/
def companyResultOf (fetch : String → Option String)
    (nodeTexts pagLinks : String → List String) (name : String)
    (threads : List ThreadRef) : FundamentalScreen.CompanyResult :=
  let texts := threads.map
    (fun t => (FundamentalScreen.process_thread fetch nodeTexts pagLinks t).text)
  let analysis := FundamentalScreen.analyze_fundamentals
    (String.intercalate (" ") texts)
  ⟨name, FundamentalScreen.pyround2 analysis.total_score,
   FundamentalScreen.get_fundamental_rating analysis.total_score,
   threads.length, FundamentalScreen.highlights_str analysis.highlights⟩

/-- The company listing fetch used in the C5 analysis: the listing URL
yields a page, every thread URL fails (each thread degrades to its
title). -/
def fetchCex : String → Option String :=
  fun u => if u = ("L") then some ("H") else none

def parse1 : String → List ThreadRef :=
  fun _ => [⟨("zysk netto"), ("u1")⟩, ⟨("zysk netto"), ("u2")⟩]

def parse2 : String → List ThreadRef :=
  fun _ => [⟨("zysk netto"), ("u1")⟩, ⟨("rentowność"), ("u2")⟩]

/-! ## Lemmas and claim theorems -/

namespace Gate

lemma okT_fetchSeq (k : Nat) :
    okT true false (fetchSeq k ++ [Action.release]) = true := by
  induction k with
  | zero => rfl
  | succ k ih => simpa [fetchSeq, okT] using ih

lemma sourceProg_ok {p : List Action} (hp : SourceProg p) :
    okT false false p = true := by
  rcases hp with h | ⟨k, h⟩
  · subst h; rfl
  · subst h; simpa [threadProg, okT] using okT_fetchSeq k

lemma step_inv {N : Nat} {c c' : Config} (hinv : Inv N c) (hs : Step c c') :
    Inv N c' := by
  obtain ⟨hcount, htasks⟩ := hinv
  cases hs with
  | acq pre post r h f n =>
    obtain ⟨hfh, hok⟩ := htasks ⟨Action.acquire :: r, h, f⟩ (by simp)
    cases h <;> cases f <;> simp [okT] at hok
    refine ⟨?_, ?_⟩
    · simp only [holders, List.countP_append, List.countP_cons] at hcount ⊢
      simp at hcount ⊢
      omega
    · intro t ht
      simp only [List.mem_append, List.mem_cons] at ht
      rcases ht with h1 | h2 | h3
      · exact htasks t (by simp [h1])
      · subst h2; exact ⟨fun _ => rfl, hok⟩
      · exact htasks t (by simp [h3])
  | rel pre post r h f n =>
    obtain ⟨hfh, hok⟩ := htasks ⟨Action.release :: r, h, f⟩ (by simp)
    cases h <;> cases f <;> simp [okT] at hok
    refine ⟨?_, ?_⟩
    · simp only [holders, List.countP_append, List.countP_cons] at hcount ⊢
      simp at hcount ⊢
      omega
    · intro t ht
      simp only [List.mem_append, List.mem_cons] at ht
      rcases ht with h1 | h2 | h3
      · exact htasks t (by simp [h1])
      · subst h2; exact ⟨fun h => h, hok⟩
      · exact htasks t (by simp [h3])
  | fs pre post r h f n =>
    obtain ⟨hfh, hok⟩ := htasks ⟨Action.fetchStart :: r, h, f⟩ (by simp)
    cases h <;> cases f <;> simp [okT] at hok
    refine ⟨?_, ?_⟩
    · simp only [holders, List.countP_append, List.countP_cons] at hcount ⊢
      simp at hcount ⊢
      omega
    · intro t ht
      simp only [List.mem_append, List.mem_cons] at ht
      rcases ht with h1 | h2 | h3
      · exact htasks t (by simp [h1])
      · subst h2; exact ⟨fun _ => rfl, hok⟩
      · exact htasks t (by simp [h3])
  | fe pre post r h f n =>
    obtain ⟨hfh, hok⟩ := htasks ⟨Action.fetchEnd :: r, h, f⟩ (by simp)
    cases h <;> cases f <;> simp [okT] at hok
    refine ⟨?_, ?_⟩
    · simp only [holders, List.countP_append, List.countP_cons] at hcount ⊢
      simp at hcount ⊢
      omega
    · intro t ht
      simp only [List.mem_append, List.mem_cons] at ht
      rcases ht with h1 | h2 | h3
      · exact htasks t (by simp [h1])
      · subst h2; exact ⟨fun _ => rfl, hok⟩
      · exact htasks t (by simp [h3])
  | spawn ts p n hsp =>
    refine ⟨?_, ?_⟩
    · simp only [holders, List.countP_append, List.countP_cons] at hcount ⊢
      simp at hcount ⊢
      omega
    · intro t ht
      simp only [List.mem_append, List.mem_cons] at ht
      rcases ht with h1 | h2
      · exact htasks t h1
      · simp at h2; subst h2; exact ⟨fun h => h, sourceProg_ok hsp⟩

lemma reach_inv {N : Nat} {c₀ c : Config} (h₀ : Inv N c₀) (hr : Reach c₀ c) :
    Inv N c := by
  induction hr with
  | refl => exact h₀
  | tail _ hstep ih => exact step_inv ih hstep

lemma inflight_le_holders {ts : List TaskSt} (h : ∀ t ∈ ts, TaskOk t) :
    inflight ts ≤ holders ts :=
  List.countP_mono_left (fun t ht hf => (h t ht).1 hf)

end Gate

/-- Claim C1: at every instant of every run, the number of concurrently
outstanding network fetches is at most the configured concurrency limit
`N`; both fan-out levels (per-company listing fetches in
`process_company` and per-thread fetches in `process_thread`) acquire
the same shared semaphore, so the bound holds globally for every
configuration reachable from an initial one whose tasks run the source's
programs and whose semaphore has `N` free slots. -/
theorem concurrency_gate_bound (N : Nat) (c₀ c : Gate.Config)
    (hinit : c₀.avail = N ∧
      ∀ t ∈ c₀.tasks, t.holding = false ∧ t.fetching = false ∧ Gate.SourceProg t.prog)
    (hreach : Gate.Reach c₀ c) :
    Gate.inflight c.tasks ≤ N := by
  have h₀ : Gate.Inv N c₀ := by
    refine ⟨?_, ?_⟩
    · have hz : Gate.holders c₀.tasks = 0 :=
        List.countP_eq_zero.2 (fun t ht => by simp [(hinit.2 t ht).1])
      rw [hz, hinit.1, Nat.zero_add]
    · intro t ht
      obtain ⟨hh, hf, hsp⟩ := hinit.2 t ht
      refine ⟨fun h => ?_, ?_⟩
      · rw [hf] at h; exact Bool.noConfusion h
      · rw [hh, hf]; exact Gate.sourceProg_ok hsp
  have hinv := Gate.reach_inv h₀ hreach
  exact le_trans (Gate.inflight_le_holders hinv.2) (Nat.le.intro hinv.1)

/-- Witness for C1: a run with one company task and one two-fetch thread
task under the default limit 5, at its initial configuration. -/
theorem concurrency_gate_bound_witness :
    Gate.inflight (Gate.Config.mk
      [⟨Gate.companyProg, false, false⟩, ⟨Gate.threadProg 2, false, false⟩] 5).tasks ≤ 5 := by
  refine concurrency_gate_bound 5 _ _ ⟨rfl, ?_⟩ Relation.ReflTransGen.refl
  intro t ht
  simp only [List.mem_cons, List.not_mem_nil, or_false] at ht
  rcases ht with rfl | rfl
  · exact ⟨rfl, rfl, Or.inl rfl⟩
  · exact ⟨rfl, rfl, Or.inr ⟨2, rfl⟩⟩

namespace FundamentalScreen

lemma fetchGo_attempts_le (o : Nat → AttemptResult) :
    ∀ fuel a, (fetchGo o a fuel).attempts ≤ fuel := by
  intro fuel
  induction fuel with
  | zero => intro a; simp [fetchGo]
  | succ fuel ih =>
    intro a
    simp only [fetchGo]
    rcases o a with ⟨code, body⟩ | _
    · by_cases h200 : code = 200
      · simp [h200]
      · by_cases h503 : code = 503
        · simp only [h200, h503, if_false, if_true]
          exact Nat.succ_le_succ (ih (a + 1))
        · simp [h200, h503]
    · by_cases hlast : a < MAX_RETRIES - 1
      · simp only [hlast, if_true]
        exact Nat.succ_le_succ (ih (a + 1))
      · simp [hlast]

lemma backoffDetsL_cons_true (d : Nat) (rest : List (Bool × Nat)) :
    backoffDetsL ((true, d) :: rest) = d :: backoffDetsL rest := by
  simp [backoffDetsL]

lemma backoffDetsL_cons_false (d : Nat) (rest : List (Bool × Nat)) :
    backoffDetsL ((false, d) :: rest) = backoffDetsL rest := by
  simp [backoffDetsL]

lemma fetchGo_backoff_chain (o : Nat → AttemptResult) :
    ∀ fuel a, (∀ x ∈ backoffDetsL (fetchGo o a fuel).sleeps, 2 ^ a ≤ x) ∧
      List.Chain' (· ≤ ·) (backoffDetsL (fetchGo o a fuel).sleeps) := by
  intro fuel
  induction fuel with
  | zero => intro a; simp [fetchGo, backoffDetsL]
  | succ fuel ih =>
    intro a
    have hmono : (2 : Nat) ^ a ≤ 2 ^ (a + 1) :=
      Nat.pow_le_pow_right (by omega) (Nat.le_succ a)
    have htail := ih (a + 1)
    simp only [fetchGo]
    rcases o a with ⟨code, body⟩ | _
    · by_cases h200 : code = 200
      · simp [h200, backoffDetsL]
      · by_cases h503 : code = 503
        · simp only [h200, h503, if_false, if_true]
          rw [if_neg (by decide)]
          simp only [backoffDetsL_cons_true]
          constructor
          · intro x hx
            rcases List.mem_cons.1 hx with rfl | hx'
            · exact Nat.le_refl _
            · exact le_trans hmono (htail.1 x hx')
          · rw [List.chain'_cons']
            exact ⟨fun y hy => le_trans hmono (htail.1 y (List.mem_of_mem_head? hy)),
                   htail.2⟩
        · simp [h200, h503, backoffDetsL]
    · by_cases hlast : a < MAX_RETRIES - 1
      · simp only [hlast, if_true]
        rw [backoffDetsL_cons_false]
        exact ⟨fun x hx => le_trans hmono (htail.1 x hx), htail.2⟩
      · simp [hlast, backoffDetsL]

/-- Claim C2: for every URL, `fetch_page` makes at most `MAX_RETRIES`
attempts and always returns (never raises): a 200 response returns the
body at once; a 503 sleeps `2 ** attempt` (plus jitter) and retries, so
the deterministic components of successive 503 backoffs are
non-decreasing; any other status returns `None` at once with no retry;
an exception retries after a flat `1` (plus jitter) sleep except on the
last attempt, which returns `None`; exhausting all attempts returns
`None`.  (`fetch_page` is a total function of the attempt oracle, so no
exception can escape it by construction.) -/
theorem fetch_page_retry_policy (o : Nat → AttemptResult) :
    (fetch_page o).attempts ≤ MAX_RETRIES ∧
    List.Chain' (· ≤ ·) (backoffDets (fetch_page o)) ∧
    (∀ b, o 0 = AttemptResult.response 200 b → fetch_page o = ⟨some b, 1, []⟩) ∧
    (∀ c b, o 0 = AttemptResult.response c b → c ≠ 200 → c ≠ 503 →
      fetch_page o = ⟨none, 1, []⟩) ∧
    (∀ a fuel b, o a = AttemptResult.response 503 b →
      fetchGo o a (fuel + 1) =
        ⟨(fetchGo o (a + 1) fuel).result, (fetchGo o (a + 1) fuel).attempts + 1,
         (true, 2 ^ a) :: (fetchGo o (a + 1) fuel).sleeps⟩) ∧
    (∀ a fuel, o a = AttemptResult.exn → a < MAX_RETRIES - 1 →
      fetchGo o a (fuel + 1) =
        ⟨(fetchGo o (a + 1) fuel).result, (fetchGo o (a + 1) fuel).attempts + 1,
         (false, 1) :: (fetchGo o (a + 1) fuel).sleeps⟩) ∧
    (∀ a fuel, o a = AttemptResult.exn → ¬ a < MAX_RETRIES - 1 →
      fetchGo o a (fuel + 1) = ⟨none, 1, []⟩) ∧
    ((∀ a, a < MAX_RETRIES → o a = AttemptResult.exn) →
      fetch_page o = ⟨none, 3, [(false, 1), (false, 1)]⟩) ∧
    (∀ bs : Nat → String,
      (∀ a, a < MAX_RETRIES → o a = AttemptResult.response 503 (bs a)) →
      fetch_page o = ⟨none, 3, [(true, 1), (true, 2), (true, 4)]⟩) := by
  have h200gen : ∀ a fuel b, o a = AttemptResult.response 200 b →
      fetchGo o a (fuel + 1) = ⟨some b, 1, []⟩ := by
    intro a fuel b h; simp [fetchGo, h]
  have hother : ∀ a fuel c b, o a = AttemptResult.response c b → c ≠ 200 → c ≠ 503 →
      fetchGo o a (fuel + 1) = ⟨none, 1, []⟩ := by
    intro a fuel c b h hc1 hc2; simp [fetchGo, h, hc1, hc2]
  have h503gen : ∀ a fuel b, o a = AttemptResult.response 503 b →
      fetchGo o a (fuel + 1) =
        ⟨(fetchGo o (a + 1) fuel).result, (fetchGo o (a + 1) fuel).attempts + 1,
         (true, 2 ^ a) :: (fetchGo o (a + 1) fuel).sleeps⟩ := by
    intro a fuel b h; simp [fetchGo, h]
  have hexn1 : ∀ a fuel, o a = AttemptResult.exn → a < MAX_RETRIES - 1 →
      fetchGo o a (fuel + 1) =
        ⟨(fetchGo o (a + 1) fuel).result, (fetchGo o (a + 1) fuel).attempts + 1,
         (false, 1) :: (fetchGo o (a + 1) fuel).sleeps⟩ := by
    intro a fuel h hlt; simp [fetchGo, h, hlt]
  have hexn2 : ∀ a fuel, o a = AttemptResult.exn → ¬ a < MAX_RETRIES - 1 →
      fetchGo o a (fuel + 1) = ⟨none, 1, []⟩ := by
    intro a fuel h hlt; simp [fetchGo, h, hlt]
  refine ⟨fetchGo_attempts_le o MAX_RETRIES 0, (fetchGo_backoff_chain o MAX_RETRIES 0).2,
    ?_, ?_, h503gen, hexn1, hexn2, ?_, ?_⟩
  · intro b h; exact h200gen 0 2 b h
  · intro c b h hc1 hc2; exact hother 0 2 c b h hc1 hc2
  · intro h
    have e0 := hexn1 0 2 (h 0 (by decide)) (by decide)
    have e1 := hexn1 1 1 (h 1 (by decide)) (by decide)
    have e2 := hexn2 2 0 (h 2 (by decide)) (by decide)
    norm_num at e0 e1 e2
    show fetchGo o 0 3 = _
    rw [e0, e1, e2]
  · intro bs h
    have e0 := h503gen 0 2 (bs 0) (h 0 (by decide))
    have e1 := h503gen 1 1 (bs 1) (h 1 (by decide))
    have e2 := h503gen 2 0 (bs 2) (h 2 (by decide))
    norm_num at e0 e1 e2
    show fetchGo o 0 3 = _
    rw [e0, e1, e2]
    rfl

/-- Witness for C2 at the oracle whose every attempt raises. -/
theorem fetch_page_retry_policy_witness :
    fetch_page (fun _ => AttemptResult.exn) = ⟨none, 3, [(false, 1), (false, 1)]⟩ :=
  (fetch_page_retry_policy (fun _ => AttemptResult.exn)).2.2.2.2.2.2.2.1
    (fun _ _ => rfl)

end FundamentalScreen

lemma dedupLoop_sound (ts : List String) :
    ∀ seen, (∀ e ∈ dedupLoop ts seen, e ∉ seen ∧ ∃ t ∈ ts, normalizeWS t = e) ∧
      (dedupLoop ts seen).Nodup := by
  induction ts with
  | nil => intro seen; simp [dedupLoop]
  | cons t rest ih =>
    intro seen
    by_cases hk : normalizeWS t ≠ "" ∧ normalizeWS t ∉ seen
    · rw [show dedupLoop (t :: rest) seen
          = normalizeWS t :: dedupLoop rest (normalizeWS t :: seen) by
            simp [dedupLoop, hk]]
      obtain ⟨hsound, hdup⟩ := ih (normalizeWS t :: seen)
      refine ⟨?_, ?_⟩
      · intro e he
        rcases List.mem_cons.1 he with rfl | he'
        · exact ⟨hk.2, t, List.mem_cons_self t rest, rfl⟩
        · obtain ⟨hnot, t', ht', he'eq⟩ := hsound e he'
          exact ⟨fun hs => hnot (List.mem_cons_of_mem _ hs),
                 t', List.mem_cons_of_mem _ ht', he'eq⟩
      · refine List.nodup_cons.2 ⟨fun hmem => ?_, hdup⟩
        exact (hsound _ hmem).1 (List.mem_cons_self _ _)
    · rw [show dedupLoop (t :: rest) seen = dedupLoop rest seen by
            simp [dedupLoop]; intro h1 h2; exact absurd ⟨h1, h2⟩ hk]
      obtain ⟨hsound, hdup⟩ := ih seen
      refine ⟨fun e he => ?_, hdup⟩
      obtain ⟨hnot, t', ht', he'⟩ := hsound e he
      exact ⟨hnot, t', List.mem_cons_of_mem _ ht', he'⟩

/-- Counterexample to claim C10 as stated: the fundamental extractor
keeps only texts with `len(text) > 15`, so a 15-character matched text
(not "shorter than 15") is discarded; and the returned entries are the
whitespace-normalized forms, which can be shorter than the noise
threshold (a kept 17-character text normalizes to 11 characters). -/
theorem extractor_threshold_cex :
    ("aaaaaaaaaaaaaaa" : String).length = 15 ∧
    ¬ ("aaaaaaaaaaaaaaa" : String).length < 15 ∧
    FundamentalScreen.extract_posts_from_html
      [("aaaaaaaaaaaaaaa"), ("ab   cd   ef   gh")] = [("ab cd ef gh")] ∧
    ("ab cd ef gh" : String).length < 15 := by decide

/-- Claim C10, amended: the fundamental extractor keeps only matched
texts strictly longer than 15 characters (the sentiment extractor keeps
those of length at least 15); both deduplicate by whitespace-normalized
form preserving first-seen order and return the normalized forms, so no
two returned entries are equal and every returned entry is the
normalization of a kept matched text (the normalized entry itself may be
shorter than the threshold). -/
theorem extractor_amended (nodeTexts : List String) :
    (FundamentalScreen.extract_posts_from_html nodeTexts).Nodup ∧
    (∀ e ∈ FundamentalScreen.extract_posts_from_html nodeTexts,
      ∃ t ∈ nodeTexts, 15 < t.length ∧ normalizeWS t = e) ∧
    (SentimentAnalyzer.extract_post_texts_from_thread_soup nodeTexts).Nodup ∧
    (∀ e ∈ SentimentAnalyzer.extract_post_texts_from_thread_soup nodeTexts,
      ∃ t ∈ nodeTexts, 15 ≤ t.length ∧ normalizeWS t = e) := by
  obtain ⟨hsoundF, hdupF⟩ :=
    dedupLoop_sound (nodeTexts.filter (fun t => 15 < t.length)) []
  obtain ⟨hsoundS, hdupS⟩ :=
    dedupLoop_sound (nodeTexts.filter (fun t => ¬ t = "" ∧ ¬ t.length < 15)) []
  refine ⟨hdupF, ?_, hdupS, ?_⟩
  · intro e he
    obtain ⟨-, t, ht, hte⟩ := hsoundF e he
    obtain ⟨htmem, htlen⟩ := List.mem_filter.1 ht
    exact ⟨t, htmem, by simpa using htlen, hte⟩
  · intro e he
    obtain ⟨-, t, ht, hte⟩ := hsoundS e he
    obtain ⟨htmem, htlen⟩ := List.mem_filter.1 ht
    refine ⟨t, htmem, ?_, hte⟩
    have := of_decide_eq_true htlen
    omega

/-- Counterexample to claim C6 as stated: on the text `"spadek"`
(zero positive keywords, one negative keyword) the scorer returns the
label NEGATYWNY with score `1` = negative − positive, not the claimed
positive − negative = `−1`. -/
theorem sentiment_score_sign_cex :
    SentimentAnalyzer.analyze_sentiment ("spadek") = (("NEGATYWNY"), 1) ∧
    (SentimentAnalyzer.analyze_sentiment ("spadek")).2
      ≠ (SentimentAnalyzer.positive_score (pyLower ("spadek")) : Int)
        - SentimentAnalyzer.negative_score (pyLower ("spadek")) := by
  decide

/-- Claim C6, amended: the label is POSITIVE/NEGATIVE/NEUTRAL by
comparing the counts of positive and negative keywords substring-present
in the lowercased text, but the returned score is the absolute
difference of the counts (positive − negative for POZYTYWNY, negative −
positive for NEGATYWNY, 0 for NEUTRALNY); in particular one positive and
zero negative keywords yield (POZYTYWNY, 1), and equal counts yield
(NEUTRALNY, 0). -/
theorem sentiment_scorer_amended (text : String) :
    (SentimentAnalyzer.positive_score (pyLower text)
        > SentimentAnalyzer.negative_score (pyLower text) →
      SentimentAnalyzer.analyze_sentiment text = (("POZYTYWNY"),
        (SentimentAnalyzer.positive_score (pyLower text) : Int)
          - SentimentAnalyzer.negative_score (pyLower text))) ∧
    (SentimentAnalyzer.negative_score (pyLower text)
        > SentimentAnalyzer.positive_score (pyLower text) →
      SentimentAnalyzer.analyze_sentiment text = (("NEGATYWNY"),
        (SentimentAnalyzer.negative_score (pyLower text) : Int)
          - SentimentAnalyzer.positive_score (pyLower text))) ∧
    (SentimentAnalyzer.positive_score (pyLower text)
        = SentimentAnalyzer.negative_score (pyLower text) →
      SentimentAnalyzer.analyze_sentiment text = (("NEUTRALNY"), 0)) ∧
    (SentimentAnalyzer.positive_score (pyLower text) = 1 →
      SentimentAnalyzer.negative_score (pyLower text) = 0 →
      SentimentAnalyzer.analyze_sentiment text = (("POZYTYWNY"), 1)) := by
  refine ⟨?_, ?_, ?_, ?_⟩
  · intro h; simp [SentimentAnalyzer.analyze_sentiment, h]
  · intro h
    simp [SentimentAnalyzer.analyze_sentiment, h, Nat.lt_asymm h]
  · intro h; simp [SentimentAnalyzer.analyze_sentiment, h]
  · intro hp hn
    simp [SentimentAnalyzer.analyze_sentiment, hp, hn]

/-- Witness for C6 (amended): `"wzrost"` has one positive and zero
negative keywords and scores (POZYTYWNY, 1); `"wzrost spadek"` has equal
counts and scores (NEUTRALNY, 0). -/
theorem sentiment_scorer_amended_witness :
    SentimentAnalyzer.analyze_sentiment ("wzrost") = (("POZYTYWNY"), 1) ∧
    SentimentAnalyzer.analyze_sentiment ("wzrost spadek") = (("NEUTRALNY"), 0) :=
  ⟨(sentiment_scorer_amended ("wzrost")).2.2.2 (by decide) (by decide),
   (sentiment_scorer_amended ("wzrost spadek")).2.2.1 (by decide)⟩

lemma addPosts_le (texts : List String) :
    ∀ posts : List String, posts.length < SentimentAnalyzer.MAX_POSTS_PER_THREAD →
      (SentimentAnalyzer.addPosts posts texts).1.length
          ≤ SentimentAnalyzer.MAX_POSTS_PER_THREAD ∧
        ((SentimentAnalyzer.addPosts posts texts).2 = false →
          (SentimentAnalyzer.addPosts posts texts).1.length
            < SentimentAnalyzer.MAX_POSTS_PER_THREAD) := by
  induction texts with
  | nil =>
    intro posts h
    exact ⟨Nat.le_of_lt h, fun _ => h⟩
  | cons t rest ih =>
    intro posts h
    have hlen : (if t ∈ posts then posts else posts ++ [t]).length
        ≤ posts.length + 1 := by
      by_cases ht : t ∈ posts <;> simp [ht]
    simp only [SentimentAnalyzer.addPosts]
    by_cases hcap : SentimentAnalyzer.MAX_POSTS_PER_THREAD
        ≤ (if t ∈ posts then posts else posts ++ [t]).length
    · simp only [hcap, if_true]
      exact ⟨by omega, fun hfalse => absurd hfalse (by simp)⟩
    · simp only [hcap, if_false]
      exact ih _ (by omega)

lemma pagesLoop_le (extractTexts : String → List String) :
    ∀ (pages posts : List String),
      posts.length < SentimentAnalyzer.MAX_POSTS_PER_THREAD →
      (SentimentAnalyzer.pagesLoop extractTexts pages posts).length
        ≤ SentimentAnalyzer.MAX_POSTS_PER_THREAD := by
  intro pages
  induction pages with
  | nil => intro posts h; exact Nat.le_of_lt h
  | cons u rest ih =>
    intro posts h
    simp only [SentimentAnalyzer.pagesLoop]
    have ha := addPosts_le
      (SentimentAnalyzer.extract_post_texts_from_thread_soup (extractTexts u)) posts h
    by_cases hstop : (SentimentAnalyzer.addPosts posts
        (SentimentAnalyzer.extract_post_texts_from_thread_soup (extractTexts u))).2
    · simp only [hstop, if_true]
      exact ha.1
    · simp only [hstop, if_false]
      exact ih _ (ha.2 (by simpa using hstop))

/-- Claim C9: if a thread's first-page fetch returns `None`, the crawl
result is exactly the thread's title, with no posts and no further page
fetches. -/
theorem degraded_thread_title_only (fetch : String → Option String)
    (nodeTexts pagLinks : String → List String) (thread : ThreadRef)
    (h : fetch thread.url = none) :
    FundamentalScreen.process_thread fetch nodeTexts pagLinks thread
      = ⟨thread.title, [], []⟩ := by
  simp [FundamentalScreen.process_thread, h]

/-- Witness for C9 at a concrete always-failing fetch. -/
theorem degraded_thread_title_only_witness :
    FundamentalScreen.process_thread (fun _ => none) (fun _ => []) (fun _ => [])
      ⟨("T"), ("u")⟩ = ⟨("T"), [], []⟩ :=
  degraded_thread_title_only (fun _ => none) (fun _ => []) (fun _ => [])
    ⟨("T"), ("u")⟩ rfl

/-- Counterexample to claim C3 as stated: a thread whose first-page
fetch fails returns the raw title, which is not truncated, so a
20001-character title yields a crawl result longer than
`MAX_THREAD_TEXT_CHARS` (20000). -/
theorem thread_text_cap_cex :
    FundamentalScreen.MAX_THREAD_TEXT_CHARS
      < ((FundamentalScreen.process_thread (fun _ => none) (fun _ => [])
          (fun _ => []) ⟨bigTitle, ("u")⟩).text).length := by
  rw [show FundamentalScreen.process_thread (fun _ => none) (fun _ => [])
      (fun _ => []) ⟨bigTitle, ("u")⟩ = ⟨bigTitle, [], []⟩ from rfl]
  show FundamentalScreen.MAX_THREAD_TEXT_CHARS < bigTitle.length
  rw [show bigTitle.length = 20001 by
    rw [show bigTitle = String.mk (List.replicate 20001 ('a')) from rfl,
       String.length_mk, List.length_replicate]]
  decide

/-- Claim C3, amended: whenever the first page of a thread is actually
fetched (a non-`None`, non-empty body), the final text of
`process_thread` is truncated to `MAX_THREAD_TEXT_CHARS`; in the
sentiment pipeline the per-thread text is truncated unconditionally, so
its bound holds for all threads including degraded ones; the async
pipeline's degraded result is the bare (uncapped) title. -/
theorem thread_text_cap_amended :
    (∀ (fetch : String → Option String) (nodeTexts pagLinks : String → List String)
      (thread : ThreadRef) (html : String),
      fetch thread.url = some html → html ≠ "" →
      (FundamentalScreen.process_thread fetch nodeTexts pagLinks thread).text.length
        ≤ FundamentalScreen.MAX_THREAD_TEXT_CHARS) ∧
    (∀ (posts : List String) (title : String),
      (SentimentAnalyzer.thread_text_of posts title).length
        ≤ SentimentAnalyzer.MAX_THREAD_TEXT_CHARS) := by
  constructor
  · intro fetch nodeTexts pagLinks thread html hf hne
    simp only [FundamentalScreen.process_thread, hf]
    rw [if_neg hne]
    simp [Nat.min_le_left]
  · intro posts title
    simp only [SentimentAnalyzer.thread_text_of]
    by_cases h : SentimentAnalyzer.MAX_THREAD_TEXT_CHARS
        < (pyStrip (title ++ (" ") ++ String.intercalate (" ") posts)).length
    · rw [if_pos h]
      simp [Nat.min_le_left]
    · rw [if_neg h]
      omega

/-- Witness for C3 (amended), at a concrete successful fetch and at a
concrete sentiment thread text. -/
theorem thread_text_cap_amended_witness :
    (FundamentalScreen.process_thread (fun _ => some ("h")) (fun _ => [])
        (fun _ => []) ⟨("T"), ("u")⟩).text.length
      ≤ FundamentalScreen.MAX_THREAD_TEXT_CHARS ∧
    (SentimentAnalyzer.thread_text_of [] ("T")).length
      ≤ SentimentAnalyzer.MAX_THREAD_TEXT_CHARS :=
  ⟨thread_text_cap_amended.1 (fun _ => some ("h")) (fun _ => []) (fun _ => [])
      ⟨("T"), ("u")⟩ ("h") rfl (by decide),
   thread_text_cap_amended.2 [] ("T")⟩

set_option maxRecDepth 40000 in
set_option maxHeartbeats 2000000 in
/-- Counterexample to claim C4 as stated: a first page whose extraction
yields 101 posts makes `process_thread` accumulate 101 posts, exceeding
`MAX_POSTS_PER_THREAD = 100` (the first page is never limited, and
later pages are appended wholesale). -/
theorem posts_cap_cex :
    FundamentalScreen.MAX_POSTS_PER_THREAD
      < ((FundamentalScreen.process_thread (fun _ => some ("h"))
          (fun _ => manyTexts) (fun _ => []) ⟨("T"), ("u")⟩).posts).length := by
  decide

/-- Claim C4, amended: the crawl stops fetching further pages as soon as
the accumulated posts reach the cap — in the async pipeline no
pagination fetch is issued at or above `MAX_POSTS_PER_THREAD` posts
(but the accumulated count itself can exceed the cap, because a page's
posts are appended wholesale and the first page is never limited); in
the sentiment pipeline the accumulated posts never exceed its cap of
40, because the cap is checked after every single appended post. -/
theorem posts_cap_amended :
    (∀ (fetch : String → Option String) (nodeTexts : String → List String)
      (pages posts : List String),
      FundamentalScreen.MAX_POSTS_PER_THREAD ≤ posts.length →
      FundamentalScreen.fetchLoop fetch nodeTexts pages posts = (posts, [])) ∧
    (∀ (fetch : String → Option String) (nodeTexts pagLinks : String → List String)
      (thread : ThreadRef) (html : String),
      fetch thread.url = some html →
      ¬ (FundamentalScreen.extract_posts_from_html (nodeTexts html)).length
          < FundamentalScreen.MAX_POSTS_PER_THREAD →
      (FundamentalScreen.process_thread fetch nodeTexts pagLinks thread).extraFetched
        = []) ∧
    (∀ (extractTexts pagesOf : String → List String) (thread_url : String),
      (SentimentAnalyzer.scrape_thread_posts extractTexts pagesOf thread_url).length
        ≤ SentimentAnalyzer.MAX_POSTS_PER_THREAD) := by
  refine ⟨?_, ?_, ?_⟩
  · intro fetch nodeTexts pages posts h
    cases pages with
    | nil => rfl
    | cons u rest => simp [FundamentalScreen.fetchLoop, h]
  · intro fetch nodeTexts pagLinks thread html hf hcap
    simp only [FundamentalScreen.process_thread, hf]
    by_cases hne : html = ""
    · rw [if_pos hne]
    · rw [if_neg hne]
      have : ¬ ((FundamentalScreen.extract_posts_from_html (nodeTexts html)).length
          < FundamentalScreen.MAX_POSTS_PER_THREAD ∧
          1 < FundamentalScreen.MAX_PAGES_PER_THREAD) := fun hc => hcap hc.1
      rw [if_neg this]
  · intro extractTexts pagesOf thread_url
    simp only [SentimentAnalyzer.scrape_thread_posts]
    by_cases h : thread_url = ""
    · rw [if_pos h]; decide
    · rw [if_neg h]
      exact pagesLoop_le extractTexts (pagesOf thread_url) [] (by decide)

set_option maxRecDepth 40000 in
set_option maxHeartbeats 2000000 in
/-- Witness for C4 (amended), at a concrete saturated posts list, a
concrete saturated first page, and a concrete sentiment crawl. -/
theorem posts_cap_amended_witness :
    FundamentalScreen.fetchLoop (fun _ => some ("h")) (fun _ => [])
        [("p2")] manyTexts = (manyTexts, []) ∧
    (FundamentalScreen.process_thread (fun _ => some ("h")) (fun _ => manyTexts)
        (fun _ => [("p2")]) ⟨("T"), ("u")⟩).extraFetched = [] ∧
    (SentimentAnalyzer.scrape_thread_posts (fun _ => [("x")]) (fun _ => [("p")])
        ("u")).length ≤ SentimentAnalyzer.MAX_POSTS_PER_THREAD :=
  ⟨posts_cap_amended.1 (fun _ => some ("h")) (fun _ => []) [("p2")] manyTexts
      (by decide),
   posts_cap_amended.2.1 (fun _ => some ("h")) (fun _ => manyTexts)
      (fun _ => [("p2")]) ⟨("T"), ("u")⟩ ("h") rfl (by decide),
   posts_cap_amended.2.2 (fun _ => [("x")]) (fun _ => [("p")]) ("u")⟩

lemma valid_pages_spec (url : String) (links : List String) :
    ∀ p ∈ FundamentalScreen.valid_pages url links,
      FundamentalScreen.searchPage p.2.data = some p.1 := by
  intro p hp
  obtain ⟨link, hlink, hsome⟩ := List.mem_filterMap.1 hp
  by_cases hc : link ≠ "" ∧ link ≠ url
  · rw [if_pos hc] at hsome
    rcases hn : FundamentalScreen.searchPage link.data with - | n
    · rw [hn] at hsome; exact absurd hsome (by simp)
    · rw [hn] at hsome
      obtain rfl : (n, link) = p := by simpa using hsome
      exact hn
  · rw [if_neg hc] at hsome
    exact absurd hsome (by simp)

lemma fetchLoop_fetched_take (fetch : String → Option String)
    (nodeTexts : String → List String) :
    ∀ pages posts : List String,
      ∃ k, (FundamentalScreen.fetchLoop fetch nodeTexts pages posts).2
        = pages.take k := by
  intro pages
  induction pages with
  | nil => intro posts; exact ⟨0, rfl⟩
  | cons u rest ih =>
    intro posts
    simp only [FundamentalScreen.fetchLoop]
    by_cases h : FundamentalScreen.MAX_POSTS_PER_THREAD ≤ posts.length
    · exact ⟨0, by rw [if_pos h]; rfl⟩
    · rw [if_neg h]
      obtain ⟨k, hk⟩ :=
        ih (match fetch u with
            | some html => if html = "" then posts
                           else posts ++ FundamentalScreen.extract_posts_from_html
                             (nodeTexts html)
            | none => posts)
      exact ⟨k + 1, by rw [List.take_succ_cons, ← hk]⟩

lemma pairwise_snd_transfer (T : List (Nat × String))
    (hs : T.Pairwise (fun a b => a.1 ≤ b.1))
    (hm : ∀ p ∈ T, FundamentalScreen.searchPage p.2.data = some p.1) :
    (T.map Prod.snd).Pairwise (fun a b => ∀ na nb,
      FundamentalScreen.searchPage a.data = some na →
      FundamentalScreen.searchPage b.data = some nb → na ≤ nb) := by
  induction T with
  | nil => simp
  | cons p T ih =>
    rw [List.map_cons, List.pairwise_cons]
    obtain ⟨hhead, htail⟩ := List.pairwise_cons.1 hs
    refine ⟨?_, ih htail (fun q hq => hm q (List.mem_cons_of_mem _ hq))⟩
    intro y hy na nb hna hnb
    obtain ⟨q, hq, rfl⟩ := List.mem_map.1 hy
    have hp := hm p (List.mem_cons_self _ _)
    have hqmem := hm q (List.mem_cons_of_mem _ hq)
    rw [hp] at hna
    rw [hqmem] at hnb
    obtain rfl : p.1 = na := by injection hna
    obtain rfl : q.1 = nb := by injection hnb
    exact hhead q hq

/-- Claim C8: pagination selection keeps only links carrying a parsable
numeric page index (along with being truthy and different from the
thread's own URL), sorts them ascending by that index, and selects at
most `cap − 1` of them; the pages actually fetched are an initial
segment of that selection, in that order; and for links to pages 2, 5, 3
with page cap 3 the selection is exactly [page 2, page 3] and both are
fetched in that order. -/
theorem pagination_selection_correct (cap : Nat) (url : String) (links : List String) :
    (FundamentalScreen.pages_to_fetch cap url links).length ≤ cap - 1 ∧
    (∀ l ∈ FundamentalScreen.pages_to_fetch cap url links,
      ∃ n, FundamentalScreen.searchPage l.data = some n) ∧
    (FundamentalScreen.pages_to_fetch cap url links).Pairwise
      (fun a b => ∀ na nb, FundamentalScreen.searchPage a.data = some na →
        FundamentalScreen.searchPage b.data = some nb → na ≤ nb) ∧
    (∀ (fetch : String → Option String) (nodeTexts pagLinks : String → List String)
      (thread : ThreadRef) (html : String),
      fetch thread.url = some html →
      ∃ k, (FundamentalScreen.process_thread fetch nodeTexts pagLinks thread).extraFetched
        = (FundamentalScreen.pages_to_fetch FundamentalScreen.MAX_PAGES_PER_THREAD
            thread.url (pagLinks html)).take k) ∧
    FundamentalScreen.pages_to_fetch 3 demoThreadUrl demoLinks
      = [demoLink2, demoLink3] ∧
    (FundamentalScreen.fetchLoop (fun _ => some ("x"))
        (fun _ => [("this is a long enough post")])
        (FundamentalScreen.pages_to_fetch 3 demoThreadUrl demoLinks) []).2
      = [demoLink2, demoLink3] := by
  have hsorted := List.sorted_insertionSort FundamentalScreen.pageLE
    (FundamentalScreen.valid_pages url links)
  have htake : ∀ p ∈ (List.insertionSort FundamentalScreen.pageLE
      (FundamentalScreen.valid_pages url links)).take (cap - 1),
      FundamentalScreen.searchPage p.2.data = some p.1 :=
    fun p hp => valid_pages_spec url links p
      ((List.perm_insertionSort FundamentalScreen.pageLE _).mem_iff.1
        (List.mem_of_mem_take hp))
  have htakeSorted : ((List.insertionSort FundamentalScreen.pageLE
      (FundamentalScreen.valid_pages url links)).take (cap - 1)).Pairwise
      (fun a b => a.1 ≤ b.1) := by
    have h1 := List.Pairwise.sublist (List.take_sublist (cap - 1) _) hsorted
    exact h1.imp (fun h => h)
  refine ⟨?_, ?_, ?_, ?_, ?_, ?_⟩
  · simp only [FundamentalScreen.pages_to_fetch, List.length_map]
    exact List.length_take_le _ _
  · intro l hl
    simp only [FundamentalScreen.pages_to_fetch] at hl
    obtain ⟨p, hp, rfl⟩ := List.mem_map.1 hl
    exact ⟨p.1, htake p hp⟩
  · simp only [FundamentalScreen.pages_to_fetch]
    exact pairwise_snd_transfer _ htakeSorted htake
  · intro fetch nodeTexts pagLinks thread html hf
    simp only [FundamentalScreen.process_thread, hf]
    by_cases hne : html = ""
    · rw [if_pos hne]; exact ⟨0, rfl⟩
    · rw [if_neg hne]
      by_cases hcond : (FundamentalScreen.extract_posts_from_html
            (nodeTexts html)).length < FundamentalScreen.MAX_POSTS_PER_THREAD ∧
          1 < FundamentalScreen.MAX_PAGES_PER_THREAD
      · rw [if_pos hcond]
        exact fetchLoop_fetched_take fetch nodeTexts _ _
      · rw [if_neg hcond]
        exact ⟨0, rfl⟩
  · decide
  · decide

/-- Witness for C8 at a concrete thread whose page carries the demo
pagination links. -/
theorem pagination_selection_correct_witness :
    ∃ k, (FundamentalScreen.process_thread (fun _ => some ("x"))
        (fun _ => [("this is a long enough post")]) (fun _ => demoLinks)
        ⟨("T"), demoThreadUrl⟩).extraFetched
      = (FundamentalScreen.pages_to_fetch FundamentalScreen.MAX_PAGES_PER_THREAD
          demoThreadUrl demoLinks).take k :=
  (pagination_selection_correct FundamentalScreen.MAX_PAGES_PER_THREAD
      demoThreadUrl demoLinks).2.2.2.1
    (fun _ => some ("x")) (fun _ => [("this is a long enough post")])
    (fun _ => demoLinks) ⟨("T"), demoThreadUrl⟩ ("x") rfl

lemma scanKeywords_fst (tl tag cat : String) :
    ∀ (kws : List String) (acc : Nat × List String),
      (FundamentalScreen.scanKeywords tl tag cat kws acc).1
        = acc.1 + kws.countP (fun k => strIn k tl) := by
  intro kws
  induction kws with
  | nil => intro acc; simp [FundamentalScreen.scanKeywords]
  | cons k rest ih =>
    intro acc
    simp only [FundamentalScreen.scanKeywords, List.countP_cons]
    by_cases h : strIn k tl = true
    · rw [if_pos h, ih]
      simp [h]
      omega
    · rw [if_neg h, ih]
      simp [h]

lemma analyze_fold (tl : String) :
    ∀ (cats : List FundamentalScreen.Category)
      (x : List (String × FundamentalScreen.CatScore) × List String),
      (cats.foldl (FundamentalScreen.analyzeStep tl) x).1
        = x.1 ++ cats.map (fun c => (c.name, FundamentalScreen.catScoreOf tl c)) := by
  intro cats
  induction cats with
  | nil => intro x; simp
  | cons c rest ih =>
    intro x
    rw [List.foldl_cons, ih]
    simp [FundamentalScreen.analyzeStep, scanKeywords_fst, FundamentalScreen.catScoreOf]

lemma analyze_categories_eq (cats : List FundamentalScreen.Category)
    (text : String) (h : text ≠ "") :
    (FundamentalScreen.analyzeFundamentalsWith cats text).categories
      = cats.map (fun c => (c.name, FundamentalScreen.catScoreOf (pyLower text) c)) := by
  simp only [FundamentalScreen.analyzeFundamentalsWith]
  rw [if_neg h]
  exact analyze_fold (pyLower text) cats ([], [])

lemma analyze_total_eq (cats : List FundamentalScreen.Category)
    (text : String) (h : text ≠ "") :
    (FundamentalScreen.analyzeFundamentalsWith cats text).total_score
      = (cats.map (fun c =>
          (FundamentalScreen.catScoreOf (pyLower text) c).weighted_score)).sum := by
  simp only [FundamentalScreen.analyzeFundamentalsWith]
  rw [if_neg h]
  have hc := analyze_fold (pyLower text) cats ([], [])
  simp only [hc, List.nil_append, List.map_map]
  rfl

lemma rating_very_bullish {s : ℚ} (h1 : 3 ≤ s) :
    FundamentalScreen.get_fundamental_rating s = ("🚀 VERY BULLISH") := by
  simp only [FundamentalScreen.get_fundamental_rating]
  rw [if_pos (by norm_num; linarith)]

lemma rating_bullish {s : ℚ} (h1 : 3/2 ≤ s) (h2 : s < 3) :
    FundamentalScreen.get_fundamental_rating s = ("📈 BULLISH") := by
  simp only [FundamentalScreen.get_fundamental_rating]
  rw [if_neg (by norm_num; linarith), if_pos (by norm_num; linarith)]

lemma rating_slightly_bullish {s : ℚ} (h1 : 1/2 ≤ s) (h2 : s < 3/2) :
    FundamentalScreen.get_fundamental_rating s = ("😊 SLIGHTLY BULLISH") := by
  simp only [FundamentalScreen.get_fundamental_rating]
  rw [if_neg (by norm_num; linarith), if_neg (by norm_num; linarith),
     if_pos (by norm_num; linarith)]

lemma rating_neutral {s : ℚ} (h1 : -(1/2) < s) (h2 : s < 1/2) :
    FundamentalScreen.get_fundamental_rating s = ("➡️ NEUTRAL") := by
  simp only [FundamentalScreen.get_fundamental_rating]
  rw [if_neg (by norm_num; linarith), if_neg (by norm_num; linarith),
     if_neg (by norm_num; linarith), if_pos (by norm_num; linarith)]

lemma rating_slightly_bearish {s : ℚ} (h1 : -(3/2) < s) (h2 : s ≤ -(1/2)) :
    FundamentalScreen.get_fundamental_rating s = ("😐 SLIGHTLY BEARISH") := by
  simp only [FundamentalScreen.get_fundamental_rating]
  rw [if_neg (by norm_num; linarith), if_neg (by norm_num; linarith),
     if_neg (by norm_num; linarith), if_neg (by norm_num; linarith),
     if_pos (by norm_num; linarith)]

lemma rating_bearish {s : ℚ} (h1 : -3 < s) (h2 : s ≤ -(3/2)) :
    FundamentalScreen.get_fundamental_rating s = ("📉 BEARISH") := by
  simp only [FundamentalScreen.get_fundamental_rating]
  rw [if_neg (by norm_num; linarith), if_neg (by norm_num; linarith),
     if_neg (by norm_num; linarith), if_neg (by norm_num; linarith),
     if_neg (by norm_num; linarith), if_pos (by norm_num; linarith)]

lemma rating_very_bearish {s : ℚ} (h1 : s ≤ -3) :
    FundamentalScreen.get_fundamental_rating s = ("💥 VERY BEARISH") := by
  simp only [FundamentalScreen.get_fundamental_rating]
  rw [if_neg (by norm_num; linarith), if_neg (by norm_num; linarith),
     if_neg (by norm_num; linarith), if_neg (by norm_num; linarith),
     if_neg (by norm_num; linarith), if_neg (by norm_num; linarith)]

/-- Claim C7: for every category table and every nonempty text, the
analysis reports per category the positive and negative hit counts (the
numbers of that category's keywords substring-present in the lowercased
text), the net score positive − negative, the weighted score net ×
weight, and as total the sum of the weighted scores over all categories
in order; the rating follows the fixed bands ≥3.0, ≥1.5, ≥0.5, >−0.5,
>−1.5, >−3.0, else very bearish. -/
theorem fundamental_scorer_correct (cats : List FundamentalScreen.Category)
    (text : String) (h : text ≠ "") :
    (FundamentalScreen.analyzeFundamentalsWith cats text).categories
      = cats.map (fun c => (c.name, FundamentalScreen.catScoreOf (pyLower text) c)) ∧
    (FundamentalScreen.analyzeFundamentalsWith cats text).total_score
      = (cats.map (fun c =>
          (FundamentalScreen.catScoreOf (pyLower text) c).weighted_score)).sum ∧
    (∀ c : FundamentalScreen.Category,
      FundamentalScreen.catScoreOf (pyLower text) c
        = ⟨(c.positive_keywords.countP (fun k => strIn k (pyLower text)) : Int)
             - (c.negative_keywords.countP (fun k => strIn k (pyLower text)) : Int),
           ((((c.positive_keywords.countP (fun k => strIn k (pyLower text)) : Int)
             - (c.negative_keywords.countP (fun k => strIn k (pyLower text)) : Int))
             : Int) : ℚ) * c.weight,
           c.positive_keywords.countP (fun k => strIn k (pyLower text)),
           c.negative_keywords.countP (fun k => strIn k (pyLower text))⟩) ∧
    (∀ s : ℚ,
      (3 ≤ s → FundamentalScreen.get_fundamental_rating s = ("🚀 VERY BULLISH")) ∧
      (3/2 ≤ s → s < 3 →
        FundamentalScreen.get_fundamental_rating s = ("📈 BULLISH")) ∧
      (1/2 ≤ s → s < 3/2 →
        FundamentalScreen.get_fundamental_rating s = ("😊 SLIGHTLY BULLISH")) ∧
      (-(1/2) < s → s < 1/2 →
        FundamentalScreen.get_fundamental_rating s = ("➡️ NEUTRAL")) ∧
      (-(3/2) < s → s ≤ -(1/2) →
        FundamentalScreen.get_fundamental_rating s = ("😐 SLIGHTLY BEARISH")) ∧
      (-3 < s → s ≤ -(3/2) →
        FundamentalScreen.get_fundamental_rating s = ("📉 BEARISH")) ∧
      (s ≤ -3 →
        FundamentalScreen.get_fundamental_rating s = ("💥 VERY BEARISH"))) := by
  exact ⟨analyze_categories_eq cats text h, analyze_total_eq cats text h,
    fun c => rfl,
    fun s => ⟨fun h1 => rating_very_bullish h1, fun h1 h2 => rating_bullish h1 h2,
      fun h1 h2 => rating_slightly_bullish h1 h2, fun h1 h2 => rating_neutral h1 h2,
      fun h1 h2 => rating_slightly_bearish h1 h2, fun h1 h2 => rating_bearish h1 h2,
      fun h1 => rating_very_bearish h1⟩⟩

/-- Witness for C7 at the spec's scenario: two categories of weight 0.5,
one positive hit in the first, one negative hit in the second, total 0.0
and the NEUTRAL band. -/
theorem fundamental_scorer_correct_witness :
    (FundamentalScreen.analyzeFundamentalsWith demoCats
        ("dobre wyniki i slabe wyniki")).total_score = 0 ∧
    FundamentalScreen.get_fundamental_rating 0 = ("➡️ NEUTRAL") := by
  have h := fundamental_scorer_correct demoCats
    ("dobre wyniki i slabe wyniki") (by decide)
  have hA : ([("dobre wyniki")] : List String).countP
      (fun k => strIn k (pyLower ("dobre wyniki i slabe wyniki"))) = 1 := by decide
  have hB : ([("slabe wyniki")] : List String).countP
      (fun k => strIn k (pyLower ("dobre wyniki i slabe wyniki"))) = 1 := by decide
  constructor
  · rw [h.2.1]
    simp only [demoCats, List.map_cons, List.map_nil, List.sum_cons, List.sum_nil,
      FundamentalScreen.catScoreOf, hA, hB, List.countP_nil]
    norm_num
  · exact (h.2.2.2 0).2.2.2.1 (by norm_num) (by norm_num)

lemma process_company_eq (fetch : String → Option String)
    (nodeTexts pagLinks : String → List String)
    (parseThreads : String → List ThreadRef) (name url html : String)
    (t : ThreadRef) (ts : List ThreadRef)
    (hf : fetch url = some html) (hne : html ≠ "")
    (hp : parseThreads html = t :: ts) :
    FundamentalScreen.process_company fetch nodeTexts pagLinks parseThreads name url
      = some (companyResultOf fetch nodeTexts pagLinks name (t :: ts)) := by
  simp only [FundamentalScreen.process_company, hf]
  rw [if_neg hne, hp, if_neg (List.cons_ne_nil t ts)]
  rfl

lemma sentimentsOf_length (extractTexts pagesOf : String → List String)
    (threads_data : List ThreadRef) :
    (SentimentAnalyzer.sentimentsOf extractTexts pagesOf threads_data).length
      = threads_data.length := by
  simp [SentimentAnalyzer.sentimentsOf]

lemma scrape_company_eq (extractTexts pagesOf : String → List String)
    (t : ThreadRef) (ts : List ThreadRef) (sname : String) :
    SentimentAnalyzer.scrape_company_sentiment extractTexts pagesOf (t :: ts) sname
      = some ⟨sname,
          (SentimentAnalyzer.sentimentsOf extractTexts pagesOf (t :: ts)).length,
          (SentimentAnalyzer.sentimentsOf extractTexts pagesOf (t :: ts)).count
            ("POZYTYWNY"),
          (SentimentAnalyzer.sentimentsOf extractTexts pagesOf (t :: ts)).count
            ("NEGATYWNY"),
          (SentimentAnalyzer.sentimentsOf extractTexts pagesOf (t :: ts)).count
            ("NEUTRALNY"),
          SentimentAnalyzer.overall_label
            ((SentimentAnalyzer.sentimentsOf extractTexts pagesOf (t :: ts)).count
              ("POZYTYWNY"))
            ((SentimentAnalyzer.sentimentsOf extractTexts pagesOf (t :: ts)).count
              ("NEGATYWNY"))⟩ := by
  simp only [SentimentAnalyzer.scrape_company_sentiment]
  rw [if_neg (List.cons_ne_nil t ts)]

lemma total_zn :
    (FundamentalScreen.analyze_fundamentals ("zysk netto")).total_score = 1/4 := by
  show (FundamentalScreen.analyzeFundamentalsWith FundamentalScreen.FUNDAMENTAL_CATEGORIES
    ("zysk netto")).total_score = 1/4
  rw [analyze_total_eq FundamentalScreen.FUNDAMENTAL_CATEGORIES ("zysk netto") (by decide)]
  simp +decide [FundamentalScreen.FUNDAMENTAL_CATEGORIES, FundamentalScreen.catScoreOf,
    List.countP_cons, List.countP_nil]
  norm_num

lemma total_rent :
    (FundamentalScreen.analyze_fundamentals ("rentowność")).total_score = 1/4 := by
  show (FundamentalScreen.analyzeFundamentalsWith FundamentalScreen.FUNDAMENTAL_CATEGORIES
    ("rentowność")).total_score = 1/4
  rw [analyze_total_eq FundamentalScreen.FUNDAMENTAL_CATEGORIES ("rentowność") (by decide)]
  simp +decide [FundamentalScreen.FUNDAMENTAL_CATEGORIES, FundamentalScreen.catScoreOf,
    List.countP_cons, List.countP_nil]
  norm_num

lemma total_znzn :
    (FundamentalScreen.analyze_fundamentals ("zysk netto zysk netto")).total_score
      = 1/4 := by
  show (FundamentalScreen.analyzeFundamentalsWith FundamentalScreen.FUNDAMENTAL_CATEGORIES
    ("zysk netto zysk netto")).total_score = 1/4
  rw [analyze_total_eq FundamentalScreen.FUNDAMENTAL_CATEGORIES
    ("zysk netto zysk netto") (by decide)]
  simp +decide [FundamentalScreen.FUNDAMENTAL_CATEGORIES, FundamentalScreen.catScoreOf,
    List.countP_cons, List.countP_nil]
  norm_num

lemma total_znrent :
    (FundamentalScreen.analyze_fundamentals ("zysk netto rentowność")).total_score
      = 1/2 := by
  show (FundamentalScreen.analyzeFundamentalsWith FundamentalScreen.FUNDAMENTAL_CATEGORIES
    ("zysk netto rentowność")).total_score = 1/2
  rw [analyze_total_eq FundamentalScreen.FUNDAMENTAL_CATEGORIES
    ("zysk netto rentowność") (by decide)]
  simp +decide [FundamentalScreen.FUNDAMENTAL_CATEGORIES, FundamentalScreen.catScoreOf,
    List.countP_cons, List.countP_nil]
  norm_num

/-- Counterexample to claim C5 as stated: two runs whose retained
threads have identical per-thread scores (both [1/4, 1/4]; every thread
degrades to its title) produce different CompanyResults, because
`process_company` scores the concatenation of the thread texts once
instead of aggregating per-thread scores — a keyword occurring in two
threads is counted once in the joined text. -/
theorem company_aggregation_cex :
    ((parse1 ("H")).map (fun t =>
        (FundamentalScreen.analyze_fundamentals
          (FundamentalScreen.process_thread fetchCex (fun _ => []) (fun _ => [])
            t).text).total_score)
      = (parse2 ("H")).map (fun t =>
        (FundamentalScreen.analyze_fundamentals
          (FundamentalScreen.process_thread fetchCex (fun _ => []) (fun _ => [])
            t).text).total_score)) ∧
    FundamentalScreen.process_company fetchCex (fun _ => []) (fun _ => [])
        parse1 ("X") ("L")
      ≠ FundamentalScreen.process_company fetchCex (fun _ => []) (fun _ => [])
        parse2 ("X") ("L") := by
  have htext1 : (FundamentalScreen.process_thread fetchCex (fun _ => [])
      (fun _ => []) ⟨("zysk netto"), ("u1")⟩).text = ("zysk netto") := rfl
  have htext2 : (FundamentalScreen.process_thread fetchCex (fun _ => [])
      (fun _ => []) ⟨("zysk netto"), ("u2")⟩).text = ("zysk netto") := rfl
  have htext3 : (FundamentalScreen.process_thread fetchCex (fun _ => [])
      (fun _ => []) ⟨("rentowność"), ("u2")⟩).text = ("rentowność") := rfl
  constructor
  · simp only [parse1, parse2, List.map_cons, List.map_nil]
    rw [htext1, htext2, htext3, total_zn, total_rent]
  · have e1 := process_company_eq fetchCex (fun _ => []) (fun _ => []) parse1
      ("X") ("L") ("H") ⟨("zysk netto"), ("u1")⟩ [⟨("zysk netto"), ("u2")⟩]
      rfl (by decide) rfl
    have e2 := process_company_eq fetchCex (fun _ => []) (fun _ => []) parse2
      ("X") ("L") ("H") ⟨("zysk netto"), ("u1")⟩ [⟨("rentowność"), ("u2")⟩]
      rfl (by decide) rfl
    have hrat1 : (companyResultOf fetchCex (fun _ => []) (fun _ => []) ("X")
        [⟨("zysk netto"), ("u1")⟩, ⟨("zysk netto"), ("u2")⟩]).rating
        = ("➡️ NEUTRAL") := by
      show FundamentalScreen.get_fundamental_rating
        (FundamentalScreen.analyze_fundamentals
          (String.intercalate (" ")
            (([⟨("zysk netto"), ("u1")⟩, ⟨("zysk netto"), ("u2")⟩] :
                List ThreadRef).map
              (fun t => (FundamentalScreen.process_thread fetchCex (fun _ => [])
                (fun _ => []) t).text)))).total_score = ("➡️ NEUTRAL")
      rw [show String.intercalate (" ")
          (([⟨("zysk netto"), ("u1")⟩, ⟨("zysk netto"), ("u2")⟩] :
              List ThreadRef).map
            (fun t => (FundamentalScreen.process_thread fetchCex (fun _ => [])
              (fun _ => []) t).text)) = ("zysk netto zysk netto") from rfl]
      rw [total_znzn]
      exact rating_neutral (by norm_num) (by norm_num)
    have hrat2 : (companyResultOf fetchCex (fun _ => []) (fun _ => []) ("X")
        [⟨("zysk netto"), ("u1")⟩, ⟨("rentowność"), ("u2")⟩]).rating
        = ("😊 SLIGHTLY BULLISH") := by
      show FundamentalScreen.get_fundamental_rating
        (FundamentalScreen.analyze_fundamentals
          (String.intercalate (" ")
            (([⟨("zysk netto"), ("u1")⟩, ⟨("rentowność"), ("u2")⟩] :
                List ThreadRef).map
              (fun t => (FundamentalScreen.process_thread fetchCex (fun _ => [])
                (fun _ => []) t).text)))).total_score = ("😊 SLIGHTLY BULLISH")
      rw [show String.intercalate (" ")
          (([⟨("zysk netto"), ("u1")⟩, ⟨("rentowność"), ("u2")⟩] :
              List ThreadRef).map
            (fun t => (FundamentalScreen.process_thread fetchCex (fun _ => [])
              (fun _ => []) t).text)) = ("zysk netto rentowność") from rfl]
      rw [total_znrent]
      exact rating_slightly_bullish (by norm_num) (by norm_num)
    rw [e1, e2]
    intro heq
    have h := Option.some.inj heq
    have hr := congrArg FundamentalScreen.CompanyResult.rating h
    rw [hrat1, hrat2] at hr
    exact absurd hr (by decide)

/-- Claim C5, amended: for every company with at least one retained
thread, one crawl task is fanned out per retained thread and all are
awaited, and the company task does not fail when individual threads
degrade; in the async fundamental pipeline the per-thread texts are
then concatenated and scored once (per-thread scores are not
aggregated), while in the sentiment pipeline each thread's text is
scored individually and the per-thread labels are counted into the
CompanyResult. -/
theorem company_fanout_amended (fetch : String → Option String)
    (nodeTexts pagLinks : String → List String)
    (parseThreads : String → List ThreadRef) (name url html : String)
    (t : ThreadRef) (ts : List ThreadRef)
    (hf : fetch url = some html) (hne : html ≠ "")
    (hp : parseThreads html = t :: ts)
    (extractTexts pagesOf : String → List String) (sname : String) :
    FundamentalScreen.process_company fetch nodeTexts pagLinks parseThreads name url
      = some (companyResultOf fetch nodeTexts pagLinks name (t :: ts)) ∧
    (SentimentAnalyzer.sentimentsOf extractTexts pagesOf (t :: ts)).length
      = (t :: ts).length ∧
    SentimentAnalyzer.scrape_company_sentiment extractTexts pagesOf (t :: ts) sname
      = some ⟨sname,
          (SentimentAnalyzer.sentimentsOf extractTexts pagesOf (t :: ts)).length,
          (SentimentAnalyzer.sentimentsOf extractTexts pagesOf (t :: ts)).count
            ("POZYTYWNY"),
          (SentimentAnalyzer.sentimentsOf extractTexts pagesOf (t :: ts)).count
            ("NEGATYWNY"),
          (SentimentAnalyzer.sentimentsOf extractTexts pagesOf (t :: ts)).count
            ("NEUTRALNY"),
          SentimentAnalyzer.overall_label
            ((SentimentAnalyzer.sentimentsOf extractTexts pagesOf (t :: ts)).count
              ("POZYTYWNY"))
            ((SentimentAnalyzer.sentimentsOf extractTexts pagesOf (t :: ts)).count
              ("NEGATYWNY"))⟩ :=
  ⟨process_company_eq fetch nodeTexts pagLinks parseThreads name url html t ts
      hf hne hp,
   sentimentsOf_length extractTexts pagesOf (t :: ts),
   scrape_company_eq extractTexts pagesOf t ts sname⟩

/-- Witness for C5 (amended) at the concrete degraded-thread run. -/
theorem company_fanout_amended_witness :
    FundamentalScreen.process_company fetchCex (fun _ => []) (fun _ => [])
        parse1 ("X") ("L")
      = some (companyResultOf fetchCex (fun _ => []) (fun _ => []) ("X")
          [⟨("zysk netto"), ("u1")⟩, ⟨("zysk netto"), ("u2")⟩]) :=
  (company_fanout_amended fetchCex (fun _ => []) (fun _ => []) parse1
    ("X") ("L") ("H") ⟨("zysk netto"), ("u1")⟩ [⟨("zysk netto"), ("u2")⟩]
    rfl (by decide) rfl (fun _ => []) (fun _ => []) ("S")).1

/-- Witness for C10 (amended) at a concrete single-text page. -/
theorem extractor_amended_witness :
    ∃ t ∈ [("this is a sufficiently long post")],
      15 < t.length ∧ normalizeWS t = ("this is a sufficiently long post") :=
  (extractor_amended [("this is a sufficiently long post")]).2.1
    ("this is a sufficiently long post") (by decide)
